import Mathlib

/-!
Shallow embedding of the admin identity and credential-recovery subsystem of
`src/server.js` (Express + Mongoose + bcrypt + jsonwebtoken + nodemailer).

Modelling conventions:
- The Mongo `Admin` collection is a `List AdminRecord` in insertion order;
  `Admin.findOne` returns the first record satisfying the query predicate.
- Machine time is `Nat` seconds.  The 10-minute `setTimeout` in
  `/generate-otp` (10 * 60 * 1000 ms) is modelled as a scheduled fire time
  `now + 600` kept in `ServerState.otpTimers`; a due callback runs before any
  later-timestamped request is handled.
- The process-wide mutable variables `generatedOTP` (a number, or the cleared
  sentinel `''`) and `resetMail` are modelled as `Option Nat` and `String`
  fields of `ServerState`.  JavaScript strict equality
  `parseInt(otp) === generatedOTP` is false whenever either side is the
  sentinel (`''`, a string) or the parse result is `NaN`, so the comparison is
  the `Option Nat` match below (a negative parse result can never equal a
  stored 6-digit code either, so `none` also covers it).
- bcrypt and jsonwebtoken are external libraries, not repository code; they
  are modelled from the spec (sections 4.1, 4.2, 8) by executable definitions
  below, each marked `Modelled from the spec:` in its doc comment.
- HTTP response bodies are lists of key/value string pairs, mirroring the
  JSON object literals in the source.
-/

/-- HTTP response: a status code and a JSON body of string key/value pairs. -/
structure HttpResponse where
  status : Nat
  body : List (String × String)
deriving Repr, DecidableEq

/-- Document of the Mongo `Admin` collection (adminSchema, src/server.js lines
44-61), with `id` standing for the Mongo `_id`. -/
structure AdminRecord where
  id : String
  name : String
  email : String
  mobile : String
  password : String
deriving Repr, DecidableEq

/-- Modelled from the spec: bcrypt (external library) is a one-way adaptive
hash whose digest self-describes its cost and salt; the model prepends the
bcrypt version/cost prefix to the plaintext, which keeps the spec section 8
properties (digest differs from plaintext, verify succeeds exactly on the
hashed plaintext) decidably true. -/
def bcryptHash (plaintext : String) : String :=
  "$2b$10$" ++ plaintext

/-- Modelled from the spec: `bcrypt.compare(plaintext, digest)` never raises
and returns whether the digest is the hash of the plaintext. -/
def bcryptCompare (plaintext digest : String) : Bool :=
  digest == bcryptHash plaintext

/-- Payload of the JWT issued at login: `{ id: existingAdmin._id, username }`
(src/server.js line 202). -/
structure JwtPayload where
  id : String
  username : String
deriving Repr, DecidableEq

/-- Modelled from the spec: a signed token embeds the payload, an expiry
instant, and a signature over both computed with the process secret. -/
structure JwtToken where
  payload : JwtPayload
  exp : Nat
  sig : String
deriving Repr, DecidableEq

/-- Modelled from the spec: the signature is a MAC of the payload and expiry
under the secret; an injective encoding keyed by the secret stands in for the
HMAC of the jsonwebtoken library. -/
def jwtMac (secret : String) (payload : JwtPayload) (exp : Nat) : String :=
  secret ++ "|" ++ payload.id ++ "|" ++ payload.username ++ "|" ++ toString exp

/-- Modelled from the spec: `jwt.sign(payload, secret, expiresIn 1h)`
(src/server.js lines 203-205) embeds expiresAt = issuedAt + 3600 s. -/
def jwtSign (payload : JwtPayload) (secret : String) (now : Nat) : JwtToken :=
  { payload := payload, exp := now + 3600, sig := jwtMac secret payload (now + 3600) }

/-- Modelled from the spec: `jwt.verify(token, secret)` checks signature
integrity and expiry together; jsonwebtoken treats a token as expired once the
clock reaches `exp`, so verification succeeds exactly when the signature
recomputes and `now < exp`.  `none` models the thrown `JsonWebTokenError` or
`TokenExpiredError`. -/
def jwtVerify (tok : JwtToken) (secret : String) (now : Nat) : Option JwtPayload :=
  if tok.sig == jwtMac secret tok.payload tok.exp ∧ now < tok.exp then
    some tok.payload
  else
    none

/-- Splits a character list at every occurrence of `sep`, keeping empty
groups, exactly as `String.prototype.split` with a one-character separator
does (so the empty string yields one empty group). -/
def splitChars (sep : Char) : List Char → List (List Char)
  | [] => [[]]
  | c :: rest =>
    match splitChars sep rest with
    | [] => [[c]]
    | g :: gs => if c = sep then [] :: g :: gs else (c :: g) :: gs

/-- JavaScript `s.split(' ')` (src/server.js line 131). -/
def jsSplitSpace (s : String) : List String :=
  (splitChars ' ' s.data).map String.mk

/-- Outcome of the `tokenAuthentication` middleware: either an error response
is sent, or `req.details` is assigned and control passes to `next()`. -/
inductive AuthOutcome where
  | respond (status : Nat) (error : String)
  | proceed (details : List (String × String))
deriving Repr, DecidableEq

/-- Rendering of a verified JWT payload as request-context key/value pairs;
what the middleware would attach if it attached the verified identity. -/
def payloadPairs (p : JwtPayload) : List (String × String) :=
  [("id", p.id), ("username", p.username)]

/-- Middleware `tokenAuthentication` (src/server.js lines 123-151).
`authHeader` is the `Authorization` header, `body` the parsed JSON request
body, and `vf` the token verifier `t => jwt.verify(t, MY_SECRET_CODE)` at the
current instant (`none` models a throw, caught at line 147).  The source line
131 token extraction `authHeader.split(' ')[1]` is `(jsSplitSpace h)[1]?`,
with the empty string falsy like `undefined`.  The line 144 `else` branch
(401 invalid token) is unreachable because `jwt.verify` either returns a
truthy decoded payload or throws. -/
def tokenAuthentication (vf : String → Option JwtPayload)
    (body : List (String × String)) (authHeader : Option String) : AuthOutcome :=
  match authHeader with
  | none => .respond 401 "Unauthorized: Access token missing"
  | some h =>
    match (jsSplitSpace h)[1]? with
    | none => .respond 401 "Unauthorized: Invalid token format"
    | some tok =>
      if tok = "" then
        .respond 401 "Unauthorized: Invalid token format"
      else
        match vf tok with
        | some _ => .proceed body
        | none => .respond 403 "Forbidden: Error in token authentication"

/-- Lookup for signup (src/server.js lines 159-161):
`Admin.findOne({ $or: [{ mobile: mobile }, { email: email }] })`. -/
def findByEmailOrMobile (admins : List AdminRecord) (email mobile : String) :
    Option AdminRecord :=
  admins.find? (fun a => a.mobile == mobile || a.email == email)

/-- Lookup for login (src/server.js lines 193-195):
`Admin.findOne({ $or: [{ mobile: username }, { email: username }] })`. -/
def findByUsername (admins : List AdminRecord) (username : String) :
    Option AdminRecord :=
  admins.find? (fun a => a.mobile == username || a.email == username)

/-- Lookup by email (src/server.js lines 349 and 398):
`Admin.findOne({ email: m })`. -/
def findByEmail (admins : List AdminRecord) (m : String) : Option AdminRecord :=
  admins.find? (fun a => a.email == m)

/-- Handler of `POST /admin/signup` (src/server.js lines 154-186).  `newId` is
the Mongo `_id` assigned to the inserted document.  Returns the response and
the collection after the request. -/
def adminSignup (name mobile email password newId : String)
    (admins : List AdminRecord) : HttpResponse × List AdminRecord :=
  match findByEmailOrMobile admins email mobile with
  | some _ =>
    (⟨409, [("error", "email or mobile already used.")]⟩, admins)
  | none =>
    (⟨201, [("message", "admin created successfully.")]⟩,
     admins ++ [{ id := newId, name := name, email := email, mobile := mobile,
                  password := bcryptHash password }])

/-- Handler of `POST /admin/login` (src/server.js lines 189-218).  Returns the
response together with the issued token, if any (the token also appears in the
response body; it is returned as a structured value as well so theorems can
inspect it). -/
def adminLogin (username password secret : String) (now : Nat)
    (admins : List AdminRecord) : HttpResponse × Option JwtToken :=
  match findByUsername admins username with
  | none => (⟨404, [("error", "admin not found.")]⟩, none)
  | some a =>
    if bcryptCompare password a.password then
      let tok := jwtSign { id := a.id, username := username } secret now
      (⟨200, [("jwtToken", jwtMac secret tok.payload tok.exp)]⟩, some tok)
    else
      (⟨401, [("error", "invalid password.")]⟩, none)

/-- Process-wide mutable state touched by the reset flow: the admin
collection, `generatedOTP` (src/server.js line 342, `none` is the cleared
sentinel `''`), `resetMail` (line 343), and the fire times of pending
`setTimeout` callbacks from line 374. -/
structure ServerState where
  admins : List AdminRecord
  generatedOTP : Option Nat
  resetMail : String
  otpTimers : List Nat
deriving Repr, DecidableEq

/-- Runs every due `setTimeout` callback scheduled at or before `t`: each
callback is `() => { generatedOTP = '' }` (src/server.js lines 374-376), so
firing any number of them clears `generatedOTP` and touches nothing else;
fired timers are removed. -/
def fireTimersUpTo (t : Nat) (s : ServerState) : ServerState :=
  { s with
    generatedOTP :=
      if s.otpTimers.any (fun ft => ft ≤ t) then none else s.generatedOTP,
    otpTimers := s.otpTimers.filter (fun ft => t < ft) }

/-- Handler of `POST /generate-otp` (src/server.js lines 345-387) at time
`now`.  `code` is the value of `Math.floor(100000 + Math.random() * 900000)`
(line 366) and `mailOk` whether `transporter.sendMail` resolves (false models
the rejection caught at line 382).  Source order: lookup (349), assign
`resetMail` (355), assign `generatedOTP` (366), await the send (368); only a
successful send reaches the `setTimeout` (374) and the 200 response (378),
whose body echoes the OTP (line 380). -/
def generateOtp (userMail : String) (mailOk : Bool) (code : Nat) (now : Nat)
    (s : ServerState) : HttpResponse × ServerState :=
  match findByEmail s.admins userMail with
  | none => (⟨404, [("error", "Details not found.")]⟩, s)
  | some _ =>
    let s1 := { s with resetMail := userMail, generatedOTP := some code }
    if mailOk then
      (⟨200, [("message", "OTP sent successfully"), ("otp", toString code)]⟩,
       { s1 with otpTimers := s1.otpTimers ++ [now + 600] })
    else
      (⟨500, [("error", "Internal server error.")]⟩, s1)

/-- Updates the first record whose email matches (the document returned by
`Admin.findOne({ email: m })`, then mutated and saved, src/server.js lines
398-405). -/
def updateFirstByEmail (m newPass : String) :
    List AdminRecord → List AdminRecord
  | [] => []
  | a :: rest =>
    if a.email == m then { a with password := newPass } :: rest
    else a :: updateFirstByEmail m newPass rest

/-- Handler of `POST /otp-verification` (src/server.js lines 390-415).  `otp`
is the result of `parseInt(req.body.otp)` (`none` models `NaN`; a negative
result can never equal a stored code, so it is covered by `none` too).  On
match the handler looks the admin up by `resetMail`; if that lookup yields
`null`, the assignment `admin.password = hashedPass` throws and the catch
block answers 500 with no state change.  On success it clears `generatedOTP`
but then assigns the unrelated identifier `userMail` (line 407) instead of
`resetMail`, so `resetMail` survives. -/
def otpVerification (otp : Option Nat) (password : String) (s : ServerState) :
    HttpResponse × ServerState :=
  match otp, s.generatedOTP with
  | some o, some g =>
    if o = g then
      match findByEmail s.admins s.resetMail with
      | some _ =>
        (⟨201, [("message", "Password updated successfully")]⟩,
         { s with
           admins := updateFirstByEmail s.resetMail (bcryptHash password) s.admins,
           generatedOTP := none })
      | none => (⟨500, [("message", "internal server error")]⟩, s)
    else
      (⟨401, [("message", "Invalid otp")]⟩, s)
  | _, _ => (⟨401, [("message", "Invalid otp")]⟩, s)

/-- Sample admin record used by concrete witnesses: the state after a signup
with name Al, mobile 555, email a@x.com, password pw1. -/
def sampleAdmin : AdminRecord := ⟨"id1", "Al", "a@x.com", "555", bcryptHash "pw1"⟩

/-- Sample token verifier used by concrete witnesses: accepts exactly the
token string goodtok, decoding it to the identity id9/alice. -/
def demoVerifier : String → Option JwtPayload :=
  fun t => if t == "goodtok" then some ⟨"id9", "alice"⟩ else none

/-- A bcrypt digest is never the plaintext it hashes: the digest carries the
version/cost prefix, so it is strictly longer. -/
theorem bcryptHash_ne (p : String) : bcryptHash p ≠ p := by
  intro h
  have hlen := congrArg String.length h
  simp [bcryptHash, String.length_append] at hlen
  exact absurd hlen (by decide)

/-- The bcrypt digest determines the plaintext in this model. -/
theorem bcryptHash_inj (p q : String) (h : bcryptHash p = bcryptHash q) : p = q := by
  have hd := congrArg String.data h
  simp [bcryptHash, String.data_append] at hd
  exact String.ext hd

/-- Verification succeeds on the plaintext that produced the digest. -/
theorem bcryptCompare_hash_self (p : String) : bcryptCompare p (bcryptHash p) = true := by
  simp [bcryptCompare]

/-- Verification fails on every other plaintext. -/
theorem bcryptCompare_hash_ne (p q : String) (h : q ≠ p) :
    bcryptCompare q (bcryptHash p) = false := by
  simp [bcryptCompare]
  intro he
  exact h (bcryptHash_inj p q he).symm

/-- Claim C1.  At the failing input (an existing admin a@x.com, a successful
mail send, generated code 123456), the 200 response body of
`POST /generate-otp` carries the generated OTP under the key otp
(src/server.js line 380), contradicting the claim that the response body
never contains the code. -/
theorem c1_otp_echoed_in_response_body :
    ("otp", toString 123456) ∈
      (generateOtp "a@x.com" true 123456 0 ⟨[sampleAdmin], none, "", []⟩).1.body ∧
    (generateOtp "a@x.com" true 123456 0 ⟨[sampleAdmin], none, "", []⟩).1.status = 200 := by
  decide

/-- Claim C2, counterexample to the claim as stated.  A request with a body
and a token that the verifier accepts (decoding it to the identity
id9/alice) proceeds with `req.details` set to the request body, not to the
verified identity: the middleware assigns `req.details = req.body`
(src/server.js line 142). -/
theorem c2_attaches_body_not_identity :
    tokenAuthentication demoVerifier [("imageName", "pic")] (some "Bearer goodtok") =
      .proceed [("imageName", "pic")] ∧
    tokenAuthentication demoVerifier [("imageName", "pic")] (some "Bearer goodtok") ≠
      .proceed (payloadPairs ⟨"id9", "alice"⟩) := by
  decide

/-- Claim C2, amended.  The middleware is a pure function of the
Authorization header as far as status dispatch goes: header absent gives 401
missing token; header whose space-split has no second component, or an empty
second component, gives 401 invalid token format; a token the verifier
rejects gives 403; a token the verifier accepts proceeds — but what is
attached to the request context is the parsed request body, not the verified
identity. -/
theorem c2_middleware_contract (vf : String → Option JwtPayload)
    (body : List (String × String)) :
    (tokenAuthentication vf body none =
      .respond 401 "Unauthorized: Access token missing") ∧
    (∀ h : String, (jsSplitSpace h)[1]? = none →
      tokenAuthentication vf body (some h) =
        .respond 401 "Unauthorized: Invalid token format") ∧
    (∀ h : String, (jsSplitSpace h)[1]? = some "" →
      tokenAuthentication vf body (some h) =
        .respond 401 "Unauthorized: Invalid token format") ∧
    (∀ h tok, (jsSplitSpace h)[1]? = some tok → tok ≠ "" → vf tok = none →
      tokenAuthentication vf body (some h) =
        .respond 403 "Forbidden: Error in token authentication") ∧
    (∀ h tok p, (jsSplitSpace h)[1]? = some tok → tok ≠ "" → vf tok = some p →
      tokenAuthentication vf body (some h) = .proceed body) := by
  refine ⟨rfl, ?_, ?_, ?_, ?_⟩
  · intro h hs; simp [tokenAuthentication, hs]
  · intro h hs; simp [tokenAuthentication, hs]
  · intro h tok hs ht hv; simp [tokenAuthentication, hs, ht, hv]
  · intro h tok p hs ht hv; simp [tokenAuthentication, hs, ht, hv]

/-- Witness for the amended C2 contract: a present but rejected token is
answered 403. -/
theorem c2_middleware_contract_witness :
    tokenAuthentication demoVerifier [("imageName", "pic")] (some "Bearer bad") =
      .respond 403 "Forbidden: Error in token authentication" :=
  (c2_middleware_contract demoVerifier [("imageName", "pic")]).2.2.2.1
    "Bearer bad" "bad" (by decide) (by decide) (by decide)

/-- Claim C3.  At the failing input (challenge issued for a@x.com with code
123456, then verified with the matching code), the password update succeeds
(201) and the code is cleared, so resubmitting the same code fails 401; but
the challenge's target email survives: src/server.js line 407 assigns the
unrelated identifier `userMail` instead of `resetMail`, so the Challenge is
not cleared entire. -/
theorem c3_challenge_email_not_cleared :
    (otpVerification (some 123456) "pw2"
        (generateOtp "a@x.com" true 123456 0 ⟨[sampleAdmin], none, "", []⟩).2).1.status = 201 ∧
    (otpVerification (some 123456) "pw2"
        (generateOtp "a@x.com" true 123456 0 ⟨[sampleAdmin], none, "", []⟩).2).2.generatedOTP = none ∧
    (otpVerification (some 123456) "pw2"
        (generateOtp "a@x.com" true 123456 0 ⟨[sampleAdmin], none, "", []⟩).2).2.resetMail = "a@x.com" ∧
    (otpVerification (some 123456) "pw2"
        (otpVerification (some 123456) "pw2"
          (generateOtp "a@x.com" true 123456 0 ⟨[sampleAdmin], none, "", []⟩).2).2).1.status = 401 := by
  decide

/-- Claim C4, counterexample to the claim as stated.  An OTP issued at t = 0
whose mail send failed is still accepted with the correct code at
t' = 700 ≥ 600: the `setTimeout` at src/server.js line 374 is only reached
when the send resolves, so no timer ever clears this challenge. -/
theorem c4_mail_failure_code_outlives_window :
    (600 : Nat) ≤ 700 ∧
    (otpVerification (some 123456) "pw2"
      (fireTimersUpTo 700
        (generateOtp "a@x.com" false 123456 0 ⟨[sampleAdmin], none, "", []⟩).2)).1.status = 201 := by
  decide

/-- Claim C4, amended.  When the mail send succeeds and no other
challenge-mutating operation interleaves, verification with the correct code
succeeds exactly for t' in the window from issuance t to t + 600 s, the
scheduled timer clearing the code at t + 600 regardless of use.  When the
mail send fails, no timer is scheduled and the stored code stays live at
every later instant.  And a pending timer of an earlier issuance is not
cancelled by a replacing initiate: once it fires, even the correct code of
the newer challenge is rejected inside the newer challenge's own window. -/
theorem c4_otp_window (admins : List AdminRecord) (mail mail2 pw : String)
    (a b : AdminRecord) (code code2 t u t' : Nat) (g0 : Option Nat) (r0 : String)
    (hfind : findByEmail admins mail = some a)
    (hfind2 : findByEmail admins mail2 = some b) :
    (t ≤ t' →
      ((otpVerification (some code) pw
          (fireTimersUpTo t'
            (generateOtp mail true code t ⟨admins, g0, r0, []⟩).2)).1.status = 201 ↔
        t' < t + 600)) ∧
    ((generateOtp mail false code t ⟨admins, g0, r0, []⟩).2.otpTimers = [] ∧
      (otpVerification (some code) pw
        (fireTimersUpTo t'
          (generateOtp mail false code t ⟨admins, g0, r0, []⟩).2)).1.status = 201) ∧
    (t ≤ u → u < t + 600 → t + 600 ≤ t' → t' < u + 600 →
      (otpVerification (some code2) pw
        (fireTimersUpTo t'
          (generateOtp mail2 true code2 u
            (fireTimersUpTo u
              (generateOtp mail true code t ⟨admins, g0, r0, []⟩).2)).2)).1.status = 401) := by
  refine ⟨?_, ?_, ?_⟩
  · intro ht
    simp only [generateOtp, hfind, if_true]
    by_cases h6 : t + 600 ≤ t'
    · simp [fireTimersUpTo, otpVerification, h6]
    · simp [fireTimersUpTo, otpVerification, h6, hfind]
      omega
  · constructor
    · simp [generateOtp, hfind]
    · simp [generateOtp, hfind, fireTimersUpTo, otpVerification]
  · intro htu hu h6 h7
    have hu6 : ¬ (t + 600 ≤ u) := by omega
    simp only [generateOtp, hfind, if_true]
    simp only [fireTimersUpTo]
    simp [hu6, generateOtp, hfind2, otpVerification, h6]

/-- Witness for the amended C4 window: with admin a@x.com and code 123456
issued at t = 0 with a successful send, verification at t' = 100 < 600
succeeds. -/
theorem c4_otp_window_witness :
    (otpVerification (some 123456) "pw2"
      (fireTimersUpTo 100
        (generateOtp "a@x.com" true 123456 0 ⟨[sampleAdmin], none, "", []⟩).2)).1.status = 201 :=
  ((c4_otp_window [sampleAdmin] "a@x.com" "a@x.com" "pw2" sampleAdmin sampleAdmin
      123456 0 0 0 100 none "" (by decide) (by decide)).1 (by decide)).mpr (by decide)

/-- Claim C5.  When the admin lookup succeeds but the mail send fails, the
response is 500 and the state written before the send survives unchanged:
generatedOTP holds the fresh code, resetMail the target email, the admin
collection and the pending timers are untouched, and no new timer is
scheduled. -/
theorem c5_mail_failure_no_rollback (userMail : String) (code now : Nat)
    (g0 : Option Nat) (r0 : String) (tm : List Nat)
    (admins : List AdminRecord) (a : AdminRecord)
    (hfind : findByEmail admins userMail = some a) :
    generateOtp userMail false code now ⟨admins, g0, r0, tm⟩ =
      (⟨500, [("error", "Internal server error.")]⟩,
       ⟨admins, some code, userMail, tm⟩) := by
  simp [generateOtp, hfind]

/-- Witness for C5 at a concrete state. -/
theorem c5_mail_failure_no_rollback_witness :
    generateOtp "a@x.com" false 123456 5 ⟨[sampleAdmin], none, "", []⟩ =
      (⟨500, [("error", "Internal server error.")]⟩,
       ⟨[sampleAdmin], some 123456, "a@x.com", []⟩) :=
  c5_mail_failure_no_rollback "a@x.com" 123456 5 none "" [] [sampleAdmin]
    sampleAdmin (by decide)

/-- Claim C6.  A successful login issues the token signed at the current
instant; that token embeds expiry = issuance + 3600 s and verifies under the
same secret exactly while the check time is below the expiry — signature and
expiry are checked together, so the correctly signed token is rejected from
expiry on. -/
theorem c6_token_window (username password secret : String) (now t' : Nat)
    (admins : List AdminRecord) (a : AdminRecord)
    (hfind : findByUsername admins username = some a)
    (hpw : bcryptCompare password a.password = true) :
    (adminLogin username password secret now admins).2 =
      some (jwtSign ⟨a.id, username⟩ secret now) ∧
    (jwtSign ⟨a.id, username⟩ secret now).exp = now + 3600 ∧
    jwtVerify (jwtSign ⟨a.id, username⟩ secret now) secret t' =
      (if t' < now + 3600 then some ⟨a.id, username⟩ else none) := by
  refine ⟨?_, rfl, ?_⟩
  · simp [adminLogin, hfind, hpw]
  · simp [jwtVerify, jwtSign]

/-- Witness for C6: login of the sample admin at t = 0, checked at
t' = 1000. -/
theorem c6_token_window_witness :
    (adminLogin "a@x.com" "pw1" "sec" 0 [sampleAdmin]).2 =
      some (jwtSign ⟨"id1", "a@x.com"⟩ "sec" 0) ∧
    (jwtSign ⟨"id1", "a@x.com"⟩ "sec" 0).exp = 0 + 3600 ∧
    jwtVerify (jwtSign ⟨"id1", "a@x.com"⟩ "sec" 0) "sec" 1000 =
      (if 1000 < 0 + 3600 then some ⟨"id1", "a@x.com"⟩ else none) :=
  c6_token_window "a@x.com" "pw1" "sec" 0 1000 [sampleAdmin] sampleAdmin
    (by decide) (by decide)

/-- Claim C7.  The signup lookup finds a record exactly when some stored
record's mobile equals the given mobile or its email equals the given email;
a hit answers 409 leaving the collection unchanged, a miss hashes the
password and appends the new record, answering 201. -/
theorem c7_signup_branches (name mobile email password newId : String)
    (admins : List AdminRecord) :
    ((findByEmailOrMobile admins email mobile).isSome ↔
      ∃ a ∈ admins, a.mobile = mobile ∨ a.email = email) ∧
    (∀ a, findByEmailOrMobile admins email mobile = some a →
      adminSignup name mobile email password newId admins =
        (⟨409, [("error", "email or mobile already used.")]⟩, admins)) ∧
    (findByEmailOrMobile admins email mobile = none →
      adminSignup name mobile email password newId admins =
        (⟨201, [("message", "admin created successfully.")]⟩,
         admins ++ [⟨newId, name, email, mobile, bcryptHash password⟩])) := by
  refine ⟨?_, ?_, ?_⟩
  · simp [findByEmailOrMobile, List.find?_isSome]
  · intro a ha
    simp [adminSignup, ha]
  · intro hn
    simp [adminSignup, hn]

/-- Witness for C7: a fresh identity is inserted with the hashed password. -/
theorem c7_signup_branches_witness :
    adminSignup "Bo" "777" "b@x.com" "pw2" "id2" [sampleAdmin] =
      (⟨201, [("message", "admin created successfully.")]⟩,
       [sampleAdmin] ++ [⟨"id2", "Bo", "b@x.com", "777", bcryptHash "pw2"⟩]) :=
  (c7_signup_branches "Bo" "777" "b@x.com" "pw2" "id2" [sampleAdmin]).2.2 (by decide)

/-- Claim C8.  The login lookup matches the username against either the
email or the mobile field; no match answers 404, a match with a
non-verifying password answers 401, and a match with a verifying password
answers 200 carrying the token issued at the current instant — the two
failure statuses distinct. -/
theorem c8_login_branches (username password secret : String) (now : Nat)
    (admins : List AdminRecord) :
    ((findByUsername admins username).isSome ↔
      ∃ a ∈ admins, a.mobile = username ∨ a.email = username) ∧
    (findByUsername admins username = none →
      adminLogin username password secret now admins =
        (⟨404, [("error", "admin not found.")]⟩, none)) ∧
    (∀ a, findByUsername admins username = some a →
      bcryptCompare password a.password = false →
      adminLogin username password secret now admins =
        (⟨401, [("error", "invalid password.")]⟩, none)) ∧
    (∀ a, findByUsername admins username = some a →
      bcryptCompare password a.password = true →
      (adminLogin username password secret now admins).1.status = 200 ∧
      (adminLogin username password secret now admins).2 =
        some (jwtSign ⟨a.id, username⟩ secret now)) := by
  refine ⟨?_, ?_, ?_, ?_⟩
  · simp [findByUsername, List.find?_isSome]
  · intro hn; simp [adminLogin, hn]
  · intro a ha hpw; simp [adminLogin, ha, hpw]
  · intro a ha hpw; simp [adminLogin, ha, hpw, jwtSign]

/-- Witness for C8: the sample admin logs in by email with the right
password and receives a token. -/
theorem c8_login_branches_witness :
    (adminLogin "a@x.com" "pw1" "sec" 0 [sampleAdmin]).1.status = 200 ∧
    (adminLogin "a@x.com" "pw1" "sec" 0 [sampleAdmin]).2 =
      some (jwtSign ⟨"id1", "a@x.com"⟩ "sec" 0) :=
  (c8_login_branches "a@x.com" "pw1" "sec" 0 [sampleAdmin]).2.2.2 sampleAdmin
    (by decide) (by decide)

/-- Claim C9.  The adaptive hash never equals its plaintext, verifies
exactly the hashed plaintext, and both record-writing operations — signup
and the OTP-verified password reset — store the hash of the supplied
plaintext, never the plaintext. -/
theorem c9_hash_stored_never_plaintext (name mobile email pw newId : String)
    (admins : List AdminRecord) (s : ServerState) (g : Nat) (a : AdminRecord) :
    (∀ p : String, bcryptHash p ≠ p) ∧
    (∀ p : String, bcryptCompare p (bcryptHash p) = true) ∧
    (∀ p q : String, q ≠ p → bcryptCompare q (bcryptHash p) = false) ∧
    (findByEmailOrMobile admins email mobile = none →
      (adminSignup name mobile email pw newId admins).2 =
        admins ++ [⟨newId, name, email, mobile, bcryptHash pw⟩]) ∧
    (s.generatedOTP = some g → findByEmail s.admins s.resetMail = some a →
      (otpVerification (some g) pw s).2.admins =
        updateFirstByEmail s.resetMail (bcryptHash pw) s.admins) := by
  refine ⟨bcryptHash_ne, bcryptCompare_hash_self, bcryptCompare_hash_ne, ?_, ?_⟩
  · intro hn; simp [adminSignup, hn]
  · intro hotp hfind; simp [otpVerification, hotp, hfind]

/-- Witness for C9: the signup path stores the bcrypt digest of pw2. -/
theorem c9_hash_stored_never_plaintext_witness :
    (adminSignup "Bo" "777" "b@x.com" "pw2" "id2" [sampleAdmin]).2 =
      [sampleAdmin] ++ [⟨"id2", "Bo", "b@x.com", "777", bcryptHash "pw2"⟩] :=
  (c9_hash_stored_never_plaintext "Bo" "777" "b@x.com" "pw2" "id2" [sampleAdmin]
     ⟨[], none, "", []⟩ 0 sampleAdmin).2.2.2.1 (by decide)

/-- Claim C10.  When the presented code matches the live one but the lookup
by the stored reset email yields no record, the update throws inside the
try block and the handler answers 500 with the whole state — code, target
email, records, timers — unchanged, so the same code can be retried. -/
theorem c10_update_failure_preserves_challenge (s : ServerState) (g : Nat)
    (pw : String) (hotp : s.generatedOTP = some g)
    (hfind : findByEmail s.admins s.resetMail = none) :
    otpVerification (some g) pw s =
      (⟨500, [("message", "internal server error")]⟩, s) := by
  simp [otpVerification, hotp, hfind]

/-- Witness for C10 at a concrete state whose reset email matches no
record. -/
theorem c10_update_failure_preserves_challenge_witness :
    otpVerification (some 111111) "pw9" ⟨[], some 111111, "ghost@x.com", []⟩ =
      (⟨500, [("message", "internal server error")]⟩,
       ⟨[], some 111111, "ghost@x.com", []⟩) :=
  c10_update_failure_preserves_challenge ⟨[], some 111111, "ghost@x.com", []⟩
    111111 "pw9" rfl rfl
